import Mathlib

/-!
Shallow embedding of the CerisoNet backend (Express + Socket.IO + MongoDB +
PostgreSQL) for verification of its specification.

The document store (MongoDB collection `CERISoNet`) is modelled as a
`List Post`; fields that may be absent on a document are `Option`s, and the
MongoDB update operators `$inc` / `$push` follow their documented semantics on
absent fields.  Socket emissions (`socket.emit` / `io.emit` /
`socket.broadcast.emit`) are collected in an output list of `Emit` events.
Clock reads (`new Date()`), freshly generated `ObjectId`s, and the
acknowledgement of an insert are passed in as explicit parameters, since they
are environment effects.  JavaScript truthiness checks (`!postId` and the
like) are modelled on optional values: an absent field, the empty string and
the number 0 are falsy.
-/

/-- An embedded comment document, as built by the add-comment handler:
`{ id, commentedBy, text, date, hour }`. -/
structure Comment where
  id : String
  commentedBy : Nat
  text : String
  date : String
  hour : String
deriving DecidableEq, Repr

/-- A post document of the `CERISoNet` collection.  Every field other than
`_id` (here `id`) may be absent on a stored document, hence the `Option`s. -/
structure Post where
  id : String
  body : Option String
  createdBy : Option Nat
  date : Option String
  hour : Option String
  likes : Option Nat
  likedBy : Option (List Nat)
  comments : Option (List Comment)
  hashtags : Option (List String)
  images : Option (List String)
  isShared : Option Bool
  originalPost : Option String
  sharedFrom : Option Nat
deriving DecidableEq, Repr

/-- A row of the relational table `fredouil.compte`. -/
structure Account where
  id : Nat
  mail : String
  motpasse : String
  nom : String
  prenom : String
  avatar : String
  statut_connexion : Nat
deriving DecidableEq, Repr

/-- Socket events sent back by the handlers.  `errorEvt` is
a `socket.emit` of an error payload to the initiating connection; `postLiked`,
`newCommentEvt` and `postShared` are `io.emit` broadcasts to all
connections; `shareSuccess` goes to the initiator only; `userDisconnected`
is a `socket.broadcast.emit` to all other connections. -/
inductive Emit where
  | errorEvt (message : String)
  | postLiked (postId : String) (userId : Nat) (totalLikes : Nat)
  | newCommentEvt (id : String) (postId : Option String) (userId : Option Nat)
      (userName : Option String) (commentedByName : Option String)
      (text : Option String) (date : String) (hour : String)
  | postShared (postId : String) (newPostId : String) (userId : Nat)
      (userName : Option String) (date : String)
  | shareSuccess (success : Bool) (message : String) (newPostId : String)
  | userDisconnected (id : Nat) (nom : String) (prenom : String)
deriving DecidableEq, Repr

/-- JavaScript truthiness of an optional string: absent and `""` are falsy. -/
def truthyStr : Option String → Bool
  | none => false
  | some s => !(s == "")

/-- JavaScript truthiness of an optional number: absent and `0` are falsy. -/
def truthyNat : Option Nat → Bool
  | none => false
  | some n => !(n == 0)

/-- Whether `new ObjectId(s)` succeeds: `s` is a 24-character hex string. -/
def isValidObjectId (s : String) : Bool :=
  s.length == 24 && s.toList.all (fun c =>
    c.isDigit || ('a' ≤ c && c ≤ 'f') || ('A' ≤ c && c ≤ 'F'))

/-- JavaScript `x || 1` on the `likes` field read back after the update. -/
def orOne : Option Nat → Nat
  | none => 1
  | some 0 => 1
  | some n => n

/-- The MongoDB filter `{ _id: pid }`. -/
def idMatches (pid : String) (p : Post) : Bool :=
  p.id == pid

/-- The MongoDB filter `{ _id: pid, likedBy: { $elemMatch: { $eq: uid } } }`
used by the like de-duplication check. -/
def likedMatch (pid : String) (uid : Nat) (p : Post) : Bool :=
  (p.id == pid) && (p.likedBy.getD []).contains uid

/-- `findOne { _id: pid }`: the first document matching the id. -/
def findPost (store : List Post) (pid : String) : Option Post :=
  store.find? (idMatches pid)

/-- `updateOne filter update`: applies `g` to the first document satisfying
`f` and reports `matchedCount` (`1` if a document matched, else `0`). -/
def updateFirst (f : Post → Bool) (g : Post → Post) : List Post → List Post × Nat
  | [] => ([], 0)
  | p :: ps =>
    if f p then (g p :: ps, 1)
    else
      let r := updateFirst f g ps
      (p :: r.1, r.2)

/-- Payload of the `like-post` socket event. -/
structure LikeData where
  postId : Option String
  userId : Option Nat
deriving DecidableEq, Repr

/-- The `like-post` handler of `src/sockets/handlers/like.js`.  `conn` tells
whether `getCerisonetCollection()` returned a live collection.  Returns the
updated store and the emitted events. -/
def likeHandler (conn : Bool) (store : List Post) (d : LikeData) :
    List Post × List Emit :=
  if !(truthyStr d.postId) || !(truthyNat d.userId) then
    (store, [Emit.errorEvt "Données de like incomplètes"])
  else if !conn then
    (store, [Emit.errorEvt "Erreur de connexion à la base de données MongoDB"])
  else
    let pid := d.postId.getD ""
    let uid := d.userId.getD 0
    if !(isValidObjectId pid) then
      (store, [Emit.errorEvt "Format d\x27ID de post invalide"])
    else
      match store.find? (likedMatch pid uid) with
      | some _ =>
        (store, [Emit.errorEvt "Vous avez déjà liké ce post"])
      | none =>
        let upd := updateFirst (idMatches pid)
          (fun p => { p with
            likes := some (p.likes.getD 0 + 1),
            likedBy := some (p.likedBy.getD [] ++ [uid]) }) store
        if upd.2 == 0 then
          (store, [Emit.errorEvt "Post non trouvé"])
        else
          match upd.1.find? (idMatches pid) with
          | some updatedPost =>
            (upd.1, [Emit.postLiked pid uid (orOne updatedPost.likes)])
          | none =>
            (upd.1, [Emit.errorEvt "Erreur lors du traitement du like"])

/-- Payload of the `add-comment` socket event. -/
structure CommentData where
  postId : Option String
  userId : Option Nat
  content : Option String
  userName : Option String
deriving DecidableEq, Repr

/-- The MongoDB filter `{ _id: postId }` built from the raw payload value:
an absent `postId` (`undefined`, queried as null) matches no document, since
`_id` is always present and non-null. -/
def payloadIdMatches (pid : Option String) (p : Post) : Bool :=
  match pid with
  | some s => p.id == s
  | none => false

/-- The `add-comment` handler of `src/sockets/handlers/comment.js`, the file
registered by the socket configuration.  It performs no field validation and
no `ObjectId` conversion: the update is keyed by the raw payload `postId`.
Its not-found guard `if (!updateResult)` tests the truthiness of the
resolved `updateOne` result object, which is always truthy, so that branch
is dead and the `new-comment` broadcast is unconditional.  (A validated
copy of this handler also exists in the repository, but it is not the file
wired to the socket server.)  An absent `userId` or `content` is serialized
onto the stored comment by the driver as a null field, modelled here by a
default value; no theorem depends on that corner. -/
def commentHandler (conn : Bool) (newCommentId : String)
    (dateStr timeStr : String) (store : List Post) (d : CommentData) :
    List Post × List Emit :=
  if !conn then
    (store, [Emit.errorEvt "Erreur de connexion à la base de données MongoDB"])
  else
    let newComment : Comment :=
      { id := newCommentId, commentedBy := d.userId.getD 0,
        text := d.content.getD "", date := dateStr, hour := timeStr }
    let upd := updateFirst (payloadIdMatches d.postId)
      (fun p => { p with comments := some (p.comments.getD [] ++ [newComment]) })
      store
    if !true then
      (store, [Emit.errorEvt "Post non trouvé"])
    else
      (upd.1, [Emit.newCommentEvt newCommentId d.postId d.userId d.userName
        d.userName d.content dateStr timeStr])

/-- Payload of the `share-post` socket event. -/
structure ShareData where
  postId : Option String
  userId : Option Nat
  userName : Option String
deriving DecidableEq, Repr

/-- The shared-post document built by the `share-post` handler from the source
post, the freshly inserted id, the payload `postId` string, and the clock
reading. -/
def mkSharedPost (newId : String) (dateStr timeStr : String) (uid : Option Nat)
    (pid : String) (post : Post) : Post :=
  { id := newId,
    body := post.body,
    createdBy := uid,
    date := some dateStr,
    hour := some timeStr,
    originalPost := some pid,
    sharedFrom := post.createdBy,
    likes := some 0,
    likedBy := some [],
    comments := some [],
    hashtags := some (post.hashtags.getD []),
    images := some (post.images.getD []),
    isShared := some true }

/-- The `share-post` handler of `src/sockets/handlers/share.js`.  `ack` is
whether `insertOne` is acknowledged, `newId` is the inserted id assigned by
the store, `isoStr` is `now.toISOString()`. -/
def shareHandler (conn ack : Bool) (newId : String)
    (dateStr timeStr isoStr : String) (store : List Post) (d : ShareData) :
    List Post × List Emit :=
  if !(truthyStr d.postId) || !(truthyNat d.userId) then
    (store, [Emit.errorEvt "Les données de partage sont incomplètes"])
  else if !conn then
    (store, [Emit.errorEvt "Erreur de connexion à la base de données MongoDB"])
  else
    let pid := d.postId.getD ""
    if !(isValidObjectId pid) then
      (store, [Emit.errorEvt "Format d\x27ID de post invalide"])
    else
      match store.find? (idMatches pid) with
      | none => (store, [Emit.errorEvt "Post non trouvé"])
      | some post =>
        let sharedPost := mkSharedPost newId dateStr timeStr d.userId pid post
        if !ack then
          (store, [Emit.errorEvt "Erreur lors de la sauvegarde du partage"])
        else
          (store ++ [sharedPost],
           [Emit.postShared pid newId (d.userId.getD 0) d.userName isoStr,
            Emit.shareSuccess true "Post partagé avec succès" newId])

/-- Display data stored with a presence entry on `authenticate`. -/
structure UserData where
  id : Nat
  nom : String
  prenom : String
deriving DecidableEq, Repr

/-- A value of the in-memory `connectedUsers` map:
`{ socket: socket.id, userData }`. -/
structure PresenceEntry where
  socket : String
  userData : UserData
deriving DecidableEq, Repr

/-- The `connectedUsers.forEach` scan of the disconnect handler: the last key
whose entry has socket id equal to the disconnecting socket wins (each iteration
overwrites `disconnectedUserId`). -/
def findDisconnectedUser (m : List (Nat × PresenceEntry)) (sid : String) :
    Option Nat :=
  m.foldl (fun acc kv => if kv.2.socket == sid then some kv.1 else acc) none

/-- The socket `disconnect` handler: returns the presence map after the
transition, the connection-status writes `(userId, status)` issued to the
credential store, and the broadcasts. -/
def handleDisconnect (m : List (Nat × PresenceEntry)) (sid : String) :
    List (Nat × PresenceEntry) × List (Nat × Nat) × List Emit :=
  match findDisconnectedUser m sid with
  | none => (m, [], [])
  | some uid =>
    match m.find? (fun kv => kv.1 == uid) with
    | some kv =>
      (m.filter (fun e => !(e.1 == uid)),
       [(uid, 0)],
       [Emit.userDisconnected uid kv.2.userData.nom kv.2.userData.prenom])
    | none => (m, [], [])

/-- Parsed query parameters of `GET /posts`.  A numeric parameter is `none`
when absent or unparseable (`parseInt` returned `NaN`). -/
structure PostsQuery where
  page : Option Nat
  pageSize : Option Nat
  hashtag : Option String
  filterByOwner : Option String
  userId : Option Nat
  sortBy : Option String
  sortDirection : Option String
deriving DecidableEq, Repr

/-- JavaScript `parseInt(x) || d`: absent, `NaN` and `0` all yield `d`. -/
def orDefault (o : Option Nat) (d : Nat) : Nat :=
  match o with
  | none => d
  | some 0 => d
  | some n => n

/-- The MongoDB filter built by `GET /posts`: hashtag containment when the
`hashtag` parameter is truthy, and the ownership constraint when both
`filterByOwner` and `userId` are present (`me` means `createdBy = userId`,
`others` means `createdBy != userId`, anything else adds no constraint). -/
def matchesFilter (q : PostsQuery) (p : Post) : Bool :=
  (match q.hashtag with
   | some h => if h == "" then true else (p.hashtags.getD []).contains h
   | none => true)
  &&
  (match q.filterByOwner, q.userId with
   | some fbo, some uid =>
     if fbo == "" then true
     else if fbo == "me" then p.createdBy == some uid
     else if fbo == "others" then !(p.createdBy == some uid)
     else true
   | _, _ => true)

/-- Sort keys appearing in the `sortOptions` objects of `GET /posts`. -/
inductive SKey where
  | date
  | hour
  | createdBy
  | likes
deriving DecidableEq, Repr

/-- The `sortOptions` object as an ordered list of `(field, ascending?)`. -/
def sortSpec (q : PostsQuery) : List (SKey × Bool) :=
  match q.sortBy with
  | some sb =>
    let asc := q.sortDirection == some "asc"
    if sb == "date" then [(SKey.date, asc), (SKey.hour, asc)]
    else if sb == "owner" then
      [(SKey.createdBy, asc), (SKey.date, false), (SKey.hour, false)]
    else if sb == "popularity" then
      [(SKey.likes, asc), (SKey.date, false), (SKey.hour, false)]
    else [(SKey.date, false), (SKey.hour, false)]
  | none => [(SKey.date, false), (SKey.hour, false)]

/-- Comparison of optional strings, a missing value sorting lowest. -/
def cmpOS : Option String → Option String → Ordering
  | none, none => Ordering.eq
  | none, some _ => Ordering.lt
  | some _, none => Ordering.gt
  | some a, some b => compare a b

/-- Comparison of optional naturals, a missing value sorting lowest. -/
def cmpON : Option Nat → Option Nat → Ordering
  | none, none => Ordering.eq
  | none, some _ => Ordering.lt
  | some _, none => Ordering.gt
  | some a, some b => compare a b

/-- Ascending comparison of two posts on one sort key. -/
def keyCmp : SKey → Post → Post → Ordering
  | SKey.date, a, b => cmpOS a.date b.date
  | SKey.hour, a, b => cmpOS a.hour b.hour
  | SKey.createdBy, a, b => cmpON a.createdBy b.createdBy
  | SKey.likes, a, b => cmpON a.likes b.likes

/-- Lexicographic comparison of two posts along a sort specification. -/
def specCmp : List (SKey × Bool) → Post → Post → Ordering
  | [], _, _ => Ordering.eq
  | (k, asc) :: rest, a, b =>
    let c := keyCmp k a b
    let c := if asc then c else c.swap
    match c with
    | Ordering.eq => specCmp rest a b
    | o => o

/-- Insertion into a list sorted by `le`. -/
def insertLe (le : Post → Post → Bool) (p : Post) : List Post → List Post
  | [] => [p]
  | q :: qs => if le p q then p :: q :: qs else q :: insertLe le p qs

/-- The `.sort(sortOptions)` cursor step, as an insertion sort over the
comparator. -/
def sortPosts (le : Post → Post → Bool) : List Post → List Post
  | [] => []
  | p :: ps => insertLe le p (sortPosts le ps)

/-- An enriched comment as returned by `GET /posts`: the stored comment
spread together with the display name and avatar of the commenter. -/
structure FrontComment where
  id : String
  commentedBy : Nat
  text : String
  date : String
  hour : String
  commentedByName : String
  commentedByAvatar : Option String
deriving DecidableEq, Repr

/-- An enriched post as returned by `GET /posts`. -/
structure FrontPost where
  id : String
  content : String
  author : String
  authorAvatar : String
  authorId : Option Nat
  likes : Nat
  likedBy : List Nat
  images : List String
  comments : List FrontComment
  date : String
  hashtags : List String
  isShared : Bool
  sharedFrom : Option Nat
  sharedFromName : Option String
  originalPost : Option String
deriving DecidableEq, Repr

/-- `usersMap.get`: the account rows are loaded into a JS `Map` keyed by id,
where a later `set` on the same key overwrites an earlier one, so the last
row with the id wins. -/
def mapGet (users : List Account) (i : Nat) : Option Account :=
  users.reverse.find? (fun u => u.id == i)

/-- Lookup for an optional author id (`usersMap.get(undefined)` misses). -/
def mapGetOpt (users : List Account) : Option Nat → Option Account
  | none => none
  | some i => mapGet users i

/-- Enrichment of one stored comment with the display data of the commenter. -/
def enrichComment (users : List Account) (c : Comment) : FrontComment :=
  match mapGet users c.commentedBy with
  | some u =>
    { id := c.id, commentedBy := c.commentedBy, text := c.text,
      date := c.date, hour := c.hour,
      commentedByName := u.prenom ++ " " ++ u.nom,
      commentedByAvatar := some u.avatar }
  | none =>
    { id := c.id, commentedBy := c.commentedBy, text := c.text,
      date := c.date, hour := c.hour,
      commentedByName := "Utilisateur inconnu",
      commentedByAvatar := none }

/-- The per-post transformation of `GET /posts` building the frontend
object.  `nowIso` is `new Date().toISOString()`. -/
def enrichPost (users : List Account) (nowIso : String) (p : Post) : FrontPost :=
  let author := mapGetOpt users p.createdBy
  let sharedFromName :=
    if p.isShared.getD false && truthyNat p.sharedFrom then
      some (match mapGetOpt users p.sharedFrom with
            | some u => u.prenom ++ " " ++ u.nom
            | none => "Utilisateur inconnu")
    else none
  { id := p.id,
    content := p.body.getD "",
    author := match author with
      | some u => u.prenom ++ " " ++ u.nom
      | none => "Utilisateur inconnu",
    authorAvatar := match author with
      | some u => u.avatar
      | none => "",
    authorId := p.createdBy,
    likes := p.likes.getD 0,
    likedBy := p.likedBy.getD [],
    images := p.images.getD [],
    comments := (p.comments.getD []).map (enrichComment users),
    date := if truthyStr p.date && truthyStr p.hour then
        p.date.getD "" ++ "T" ++ p.hour.getD ""
      else nowIso,
    hashtags := p.hashtags.getD [],
    isShared := p.isShared.getD false,
    sharedFrom := p.sharedFrom,
    sharedFromName := sharedFromName,
    originalPost := p.originalPost }

/-- The JSON response of `GET /posts` (with its HTTP status). -/
structure FeedResult where
  status : Nat
  success : Bool
  posts : List FrontPost
  total : Nat
  page : Nat
  pageSize : Nat
  totalPages : Nat
deriving DecidableEq, Repr

/-- The `GET /posts` route handler: pagination defaults, filter, count, sort,
skip/limit, enrichment, and the response with
`totalPages = Math.ceil(total / pageSize)` (on naturals,
`(total + pageSize - 1) / pageSize`). -/
def listPosts (conn : Bool) (store : List Post) (users : List Account)
    (nowIso : String) (q : PostsQuery) : FeedResult :=
  if !conn then
    { status := 500, success := false, posts := [], total := 0, page := 0,
      pageSize := 0, totalPages := 0 }
  else
    let page := orDefault q.page 1
    let pageSize := orDefault q.pageSize 10
    let skip := (page - 1) * pageSize
    let filtered := store.filter (matchesFilter q)
    let totalPosts := filtered.length
    let sorted := sortPosts
      (fun a b => !(specCmp (sortSpec q) a b == Ordering.gt)) filtered
    let posts := ((sorted.drop skip).take pageSize).map (enrichPost users nowIso)
    { status := 200, success := true, posts := posts, total := totalPosts,
      page := page, pageSize := pageSize,
      totalPages := (totalPosts + pageSize - 1) / pageSize }

/-- The session user record created by a successful login. -/
structure SessionUser where
  id : Nat
  mail : String
  nom : String
  prenom : String
  lastLogin : String
deriving DecidableEq, Repr

/-- The outcome of `POST /login`: HTTP status, response body fields, the
session after the request, and the credential store after the request. -/
structure LoginResult where
  status : Nat
  success : Bool
  message : String
  user : Option SessionUser
  sessionAfter : Option SessionUser
  dbAfter : List Account
deriving DecidableEq, Repr

/-- `updateUserConnectionStatus(userId, status)`: issues the `UPDATE` when the
store is reachable (`writeOk`); any error is caught and the function returns
`false` instead of throwing, leaving the table unchanged. -/
def updateUserConnectionStatus (writeOk : Bool) (db : List Account)
    (userId status : Nat) : Bool × List Account :=
  if writeOk then
    (true, db.map (fun a =>
      if a.id == userId then { a with statut_connexion := status } else a))
  else
    (false, db)

/-- The `POST /login` handler of `src/routes/auth.js`.  `hash` is the SHA-1
hex digest function, `writeOk` is whether the connection-status `UPDATE`
succeeds, `nowIso` is `new Date().toISOString()`.  The handler ignores the
boolean returned by `updateUserConnectionStatus`. -/
def login (hash : String → String) (writeOk : Bool) (nowIso : String)
    (db : List Account) (sess : Option SessionUser)
    (email password : Option String) : LoginResult :=
  if !(truthyStr email) || !(truthyStr password) then
    { status := 400, success := false, message := "Email et mot de passe requis",
      user := none, sessionAfter := sess, dbAfter := db }
  else
    let e := email.getD ""
    let pw := password.getD ""
    let hashedPassword := hash pw
    match db.find? (fun a => a.mail == e) with
    | none =>
      { status := 401, success := false, message := "Utilisateur non trouvé",
        user := none, sessionAfter := sess, dbAfter := db }
    | some u =>
      if !(u.motpasse == hashedPassword) then
        { status := 401, success := false, message := "Mot de passe incorrect",
          user := none, sessionAfter := sess, dbAfter := db }
      else
        let upd := updateUserConnectionStatus writeOk db u.id 1
        let su : SessionUser :=
          { id := u.id, mail := u.mail, nom := u.nom, prenom := u.prenom,
            lastLogin := nowIso }
        { status := 200, success := true, message := "Connexion réussie",
          user := some su, sessionAfter := some su, dbAfter := upd.2 }

/-- A row returned by the connected-users query:
`SELECT id, nom, prenom, avatar`. -/
structure ConnectedRow where
  id : Nat
  nom : String
  prenom : String
  avatar : String
deriving DecidableEq, Repr

/-- `getConnectedUsers(excludeUserId)`: queries the rows with
`statut_connexion = 1`; the whole body is wrapped in a `try` whose `catch`
returns the empty list, so the result is always `Except.ok` and no storage
error escapes.  `pool` is the reachable table or the storage error. -/
def getConnectedUsers (pool : Except String (List Account))
    (excludeUserId : Option Nat) : Except String (List ConnectedRow) :=
  match pool with
  | Except.error _ => Except.ok []
  | Except.ok accounts =>
    let rows := accounts.filter (fun a => a.statut_connexion == 1)
    let rows :=
      if truthyNat excludeUserId then
        rows.filter (fun a => !(a.id == excludeUserId.getD 0))
      else rows
    Except.ok (rows.map (fun a =>
      { id := a.id, nom := a.nom, prenom := a.prenom, avatar := a.avatar }))

/-- The JSON response of `GET /users/connected` with its HTTP status. -/
structure UsersConnectedResponse where
  status : Nat
  success : Bool
  connectedUsers : List ConnectedRow
deriving DecidableEq, Repr

/-- The `GET /users/connected` route handler (after the authentication
middleware): replies 200 with the rows, or 500 from its `catch` block if the
call were to throw. -/
def getUsersConnectedRoute (pool : Except String (List Account)) :
    UsersConnectedResponse :=
  match getConnectedUsers pool none with
  | Except.ok rows => { status := 200, success := true, connectedUsers := rows }
  | Except.error _ => { status := 500, success := false, connectedUsers := [] }

/-! Helper lemmas about the embedded store operations. -/

theorem truthyStr_some_of_ne {s : String} (h : s ≠ "") :
    truthyStr (some s) = true := by
  simp [truthyStr, h]

theorem foldl_scan_eq_acc (sid : String) :
    ∀ (m : List (Nat × PresenceEntry)) (acc : Option Nat),
      (∀ kv ∈ m, kv.2.socket ≠ sid) →
      m.foldl (fun acc kv => if kv.2.socket == sid then some kv.1 else acc) acc
        = acc
  | [], _, _ => rfl
  | kv :: rest, acc, h => by
    have hkv : (kv.2.socket == sid) = false := by
      simp [h kv (List.mem_cons_self kv rest)]
    simp only [List.foldl_cons, hkv, if_neg, Bool.false_eq_true,
      not_false_eq_true]
    exact foldl_scan_eq_acc sid rest acc
      (fun e he => h e (List.mem_cons_of_mem kv he))

/-- C6: whatever the outcome of `share-post`, the resulting store extends the
input store, so the source post (and every other stored post) is unchanged:
sharing only ever inserts a new document. -/
theorem C6_share_never_mutates_original (conn ack : Bool)
    (newId dateStr timeStr isoStr : String) (store : List Post)
    (d : ShareData) :
    ∃ t, (shareHandler conn ack newId dateStr timeStr isoStr store d).1 =
      store ++ t := by
  unfold shareHandler
  dsimp only
  repeat' split
  all_goals first
    | exact ⟨_, rfl⟩
    | exact ⟨[], by simp⟩

/-- C8: on disconnect of a socket with no presence entry (one that never
authenticated), the presence map is unchanged, no connection-status write is
issued, and nothing is broadcast. -/
theorem C8_disconnect_without_authenticate
    (m : List (Nat × PresenceEntry)) (sid : String)
    (h : ∀ kv ∈ m, kv.2.socket ≠ sid) :
    handleDisconnect m sid = (m, [], []) := by
  have hscan : findDisconnectedUser m sid = none :=
    foldl_scan_eq_acc sid m none h
  unfold handleDisconnect
  rw [hscan]

/-- Witness for C8 with one presence entry for a different socket. -/
theorem C8_disconnect_without_authenticate_witness :
    handleDisconnect
        [(1, { socket := "sockA",
               userData := { id := 1, nom := "Dupont", prenom := "Jean" } })]
        "sockB" =
      ([(1, { socket := "sockA",
              userData := { id := 1, nom := "Dupont", prenom := "Jean" } })],
       [], []) :=
  C8_disconnect_without_authenticate _ "sockB" (by decide)

/-- C9: `GET /users/connected` always answers 200 with success, because
`getConnectedUsers` catches every storage error internally and returns the
empty list instead of throwing, so the 500 branch of the route is
unreachable. -/
theorem C9_users_connected_always_200 (pool : Except String (List Account)) :
    (getUsersConnectedRoute pool).status = 200 ∧
    (getUsersConnectedRoute pool).success = true ∧
    (∀ (e : String) (ex : Option Nat),
      getConnectedUsers (Except.error e) ex = Except.ok []) := by
  refine ⟨?_, ?_, fun e ex => rfl⟩
  · cases pool <;> rfl
  · cases pool <;> rfl

/-- C7: a login whose email matches a stored account but whose password
digest differs from the stored digest answers 401 with the
invalid-credential message, establishes no session, and writes nothing to
the credential store. -/
theorem C7_login_bad_password (hash : String → String) (writeOk : Bool)
    (nowIso : String) (db : List Account) (sess : Option SessionUser)
    (e pw : String) (u : Account)
    (he : e ≠ "") (hpw : pw ≠ "")
    (hf : db.find? (fun a => a.mail == e) = some u)
    (hp : u.motpasse ≠ hash pw) :
    (login hash writeOk nowIso db sess (some e) (some pw)).status = 401 ∧
    (login hash writeOk nowIso db sess (some e) (some pw)).success = false ∧
    (login hash writeOk nowIso db sess (some e) (some pw)).message =
      "Mot de passe incorrect" ∧
    (login hash writeOk nowIso db sess (some e) (some pw)).sessionAfter =
      sess ∧
    (login hash writeOk nowIso db sess (some e) (some pw)).dbAfter = db := by
  unfold login
  simp [truthyStr_some_of_ne he, truthyStr_some_of_ne hpw, hf, hp]

/-- Witness for C7 on a one-account table and a wrong password. -/
theorem C7_login_bad_password_witness :
    (login (fun s => s ++ "#h") true "2025-03-11T14:30:00.000Z"
        [{ id := 1, mail := "a@b.fr", motpasse := "bon#h", nom := "Dupont",
           prenom := "Jean", avatar := "a.png", statut_connexion := 0 }]
        none (some "a@b.fr") (some "mauvais")).status = 401 ∧
    (login (fun s => s ++ "#h") true "2025-03-11T14:30:00.000Z"
        [{ id := 1, mail := "a@b.fr", motpasse := "bon#h", nom := "Dupont",
           prenom := "Jean", avatar := "a.png", statut_connexion := 0 }]
        none (some "a@b.fr") (some "mauvais")).sessionAfter = none :=
  have h := C7_login_bad_password (fun s => s ++ "#h") true
    "2025-03-11T14:30:00.000Z"
    [{ id := 1, mail := "a@b.fr", motpasse := "bon#h", nom := "Dupont",
       prenom := "Jean", avatar := "a.png", statut_connexion := 0 }]
    none "a@b.fr" "mauvais"
    { id := 1, mail := "a@b.fr", motpasse := "bon#h", nom := "Dupont",
      prenom := "Jean", avatar := "a.png", statut_connexion := 0 }
    (by decide) (by decide) (by decide) (by decide)
  ⟨h.1, h.2.2.2.1⟩

/-- C10: a login with valid credentials answers 200, establishes the
session, and reports success whether or not the connection-status write
lands; `updateUserConnectionStatus` returns `false` on a storage failure
instead of throwing, and the handler ignores that boolean. -/
theorem C10_login_ignores_status_write_failure (hash : String → String)
    (writeOk : Bool) (nowIso : String) (db : List Account)
    (sess : Option SessionUser) (e pw : String) (u : Account)
    (he : e ≠ "") (hpw : pw ≠ "")
    (hf : db.find? (fun a => a.mail == e) = some u)
    (hp : u.motpasse = hash pw) :
    (login hash writeOk nowIso db sess (some e) (some pw)).status = 200 ∧
    (login hash writeOk nowIso db sess (some e) (some pw)).success = true ∧
    (login hash writeOk nowIso db sess (some e) (some pw)).sessionAfter =
      some { id := u.id, mail := u.mail, nom := u.nom, prenom := u.prenom,
             lastLogin := nowIso } ∧
    (writeOk = false →
      (login hash writeOk nowIso db sess (some e) (some pw)).dbAfter = db) ∧
    updateUserConnectionStatus false db u.id 1 = (false, db) := by
  unfold login
  simp [truthyStr_some_of_ne he, truthyStr_some_of_ne hpw, hf, hp,
    updateUserConnectionStatus]
  intro hw
  simp [hw]

/-- Witness for C10: valid credentials with the status write failing. -/
theorem C10_login_ignores_status_write_failure_witness :
    (login (fun s => s ++ "#h") false "2025-03-11T14:30:00.000Z"
        [{ id := 1, mail := "a@b.fr", motpasse := "bon#h", nom := "Dupont",
           prenom := "Jean", avatar := "a.png", statut_connexion := 0 }]
        none (some "a@b.fr") (some "bon")).status = 200 ∧
    (login (fun s => s ++ "#h") false "2025-03-11T14:30:00.000Z"
        [{ id := 1, mail := "a@b.fr", motpasse := "bon#h", nom := "Dupont",
           prenom := "Jean", avatar := "a.png", statut_connexion := 0 }]
        none (some "a@b.fr") (some "bon")).sessionAfter =
      some { id := 1, mail := "a@b.fr", nom := "Dupont", prenom := "Jean",
             lastLogin := "2025-03-11T14:30:00.000Z" } :=
  have h := C10_login_ignores_status_write_failure (fun s => s ++ "#h") false
    "2025-03-11T14:30:00.000Z"
    [{ id := 1, mail := "a@b.fr", motpasse := "bon#h", nom := "Dupont",
       prenom := "Jean", avatar := "a.png", statut_connexion := 0 }]
    none "a@b.fr" "bon"
    { id := 1, mail := "a@b.fr", motpasse := "bon#h", nom := "Dupont",
      prenom := "Jean", avatar := "a.png", statut_connexion := 0 }
    (by decide) (by decide) (by decide) (by decide)
  ⟨h.1, h.2.2.1⟩

theorem updateFirst_of_find?_none (f : Post → Bool) (g : Post → Post)
    (l : List Post) (h : l.find? f = none) : updateFirst f g l = (l, 0) := by
  induction l with
  | nil => rfl
  | cons p ps ih =>
    cases hp : f p with
    | false =>
      rw [List.find?_cons_of_neg _ (by simp [hp])] at h
      unfold updateFirst
      simp [hp, ih h]
    | true =>
      rw [List.find?_cons_of_pos _ hp] at h
      cases h

theorem updateFirst_found (f : Post → Bool) (g : Post → Post)
    (hfg : ∀ p, f p = true → f (g p) = true)
    (l : List Post) (P : Post) (h : l.find? f = some P) :
    (updateFirst f g l).2 = 1 ∧
    (updateFirst f g l).1.length = l.length ∧
    (updateFirst f g l).1.find? f = some (g P) ∧
    (∀ q ∈ l, f q = false → q ∈ (updateFirst f g l).1) := by
  induction l with
  | nil => cases h
  | cons p ps ih =>
    cases hp : f p with
    | false =>
      rw [List.find?_cons_of_neg _ (by simp [hp])] at h
      have IH := ih h
      unfold updateFirst
      simp only [hp, Bool.false_eq_true, if_false]
      refine ⟨IH.1, by simp [IH.2.1], ?_, ?_⟩
      · rw [List.find?_cons_of_neg _ (by simp [hp])]
        exact IH.2.2.1
      · intro q hq hfq
        rcases List.mem_cons.mp hq with rfl | hq2
        · exact List.mem_cons_self _ _
        · exact List.mem_cons_of_mem _ (IH.2.2.2 q hq2 hfq)
    | true =>
      rw [List.find?_cons_of_pos _ hp] at h
      injection h with hP
      subst hP
      unfold updateFirst
      simp only [hp, if_true]
      refine ⟨trivial, by simp, ?_, ?_⟩
      · rw [List.find?_cons_of_pos _ (hfg p hp)]
      · intro q hq hfq
        rcases List.mem_cons.mp hq with rfl | hq2
        · rw [hp] at hfq; cases hfq
        · exact List.mem_cons_of_mem _ hq2

theorem updateFirst_map_id (f : Post → Bool) (g : Post → Post)
    (hg : ∀ p : Post, (g p).id = p.id) (l : List Post) :
    (updateFirst f g l).1.map Post.id = l.map Post.id := by
  induction l with
  | nil => rfl
  | cons p ps ih =>
    cases hp : f p with
    | false =>
      unfold updateFirst
      simp [hp, ih]
    | true =>
      unfold updateFirst
      simp [hp, hg]

theorem ne_empty_of_validObjectId {s : String} (h : isValidObjectId s = true) :
    s ≠ "" := by
  intro he
  rw [he] at h
  exact absurd h (by decide)

/-- C2: a successful `share-post` on an existing source post inserts exactly
one new document copying the body, hashtags and images of the source (the latter
two defaulting to the empty list when absent), with `isShared = true`,
`originalPost` the shared post id, `sharedFrom` the source author,
`createdBy` the sharing user, zero likes, and empty likedBy and comments. -/
theorem C2_share_creates_copy (newId dateStr timeStr isoStr : String)
    (store : List Post) (pid : String) (uid : Nat)
    (userName : Option String) (P : Post)
    (hv : isValidObjectId pid = true) (hu : uid ≠ 0)
    (hP : findPost store pid = some P) :
    shareHandler true true newId dateStr timeStr isoStr store
        { postId := some pid, userId := some uid, userName := userName } =
      (store ++
        [{ id := newId, body := P.body, createdBy := some uid,
           date := some dateStr, hour := some timeStr,
           likes := some 0, likedBy := some [], comments := some [],
           hashtags := some (P.hashtags.getD []),
           images := some (P.images.getD []),
           isShared := some true, originalPost := some pid,
           sharedFrom := P.createdBy }],
       [Emit.postShared pid newId uid userName isoStr,
        Emit.shareSuccess true "Post partagé avec succès" newId]) := by
  have hts : truthyStr (some pid) = true :=
    truthyStr_some_of_ne (ne_empty_of_validObjectId hv)
  have htu : truthyNat (some uid) = true := by simp [truthyNat, hu]
  unfold shareHandler
  simp [hts, htu, hv, hP, mkSharedPost, findPost] at *
  simp [hP, mkSharedPost]

/-- Witness for C2 on a source post whose hashtags and images are absent. -/
theorem C2_share_creates_copy_witness :
    shareHandler true true "n1" "2025-03-12" "09:00:00"
        "2025-03-12T09:00:00.000Z"
        [{ id := "0123456789abcdef01234567", body := some "contenu",
           createdBy := some 2, date := some "2025-01-01",
           hour := some "10:00:00", likes := some 4, likedBy := some [3],
           comments := some [], hashtags := none, images := none,
           isShared := none, originalPost := none, sharedFrom := none }]
        { postId := some "0123456789abcdef01234567", userId := some 1,
          userName := some "Jean" } =
      ([{ id := "0123456789abcdef01234567", body := some "contenu",
          createdBy := some 2, date := some "2025-01-01",
          hour := some "10:00:00", likes := some 4, likedBy := some [3],
          comments := some [], hashtags := none, images := none,
          isShared := none, originalPost := none, sharedFrom := none },
        { id := "n1", body := some "contenu", createdBy := some 1,
          date := some "2025-03-12", hour := some "09:00:00",
          likes := some 0, likedBy := some [], comments := some [],
          hashtags := some [], images := some [], isShared := some true,
          originalPost := some "0123456789abcdef01234567",
          sharedFrom := some 2 }],
       [Emit.postShared "0123456789abcdef01234567" "n1" 1 (some "Jean")
          "2025-03-12T09:00:00.000Z",
        Emit.shareSuccess true "Post partagé avec succès" "n1"]) :=
  C2_share_creates_copy "n1" "2025-03-12" "09:00:00"
    "2025-03-12T09:00:00.000Z"
    [{ id := "0123456789abcdef01234567", body := some "contenu",
       createdBy := some 2, date := some "2025-01-01",
       hour := some "10:00:00", likes := some 4, likedBy := some [3],
       comments := some [], hashtags := none, images := none,
       isShared := none, originalPost := none, sharedFrom := none }]
    "0123456789abcdef01234567" 1 (some "Jean")
    { id := "0123456789abcdef01234567", body := some "contenu",
      createdBy := some 2, date := some "2025-01-01",
      hour := some "10:00:00", likes := some 4, likedBy := some [3],
      comments := some [], hashtags := none, images := none,
      isShared := none, originalPost := none, sharedFrom := none }
    (by decide) (by decide) rfl

theorem find_likedMatch_of_found (pid : String) (uid : Nat)
    (l : List Post) (P : Post) (h : l.find? (idMatches pid) = some P)
    (hmem : (P.likedBy.getD []).contains uid = true) :
    l.find? (likedMatch pid uid) = some P := by
  induction l with
  | nil => cases h
  | cons p ps ih =>
    cases hp : idMatches pid p with
    | true =>
      rw [List.find?_cons_of_pos _ hp] at h
      injection h with hP
      subst hP
      have hl : likedMatch pid uid p = true := by
        simp only [likedMatch, Bool.and_eq_true]
        exact ⟨hp, hmem⟩
      rw [List.find?_cons_of_pos _ hl]
    | false =>
      rw [List.find?_cons_of_neg _ (by simp [hp])] at h
      have hl : likedMatch pid uid p = false := by
        simp only [likedMatch, idMatches] at hp ⊢
        simp [hp]
      rw [List.find?_cons_of_neg _ (by simp [hl])]
      exact ih h

theorem find_likedMatch_none (pid : String) (uid : Nat)
    (l : List Post) (P : Post) (hnd : (l.map Post.id).Nodup)
    (h : l.find? (idMatches pid) = some P)
    (hmem : (P.likedBy.getD []).contains uid = false) :
    l.find? (likedMatch pid uid) = none := by
  apply List.find?_eq_none.mpr
  intro q hq hlq
  simp only [likedMatch, Bool.and_eq_true] at hlq
  have hqid : q.id = pid := by simpa using hlq.1
  have hPmem : P ∈ l := List.mem_of_find?_eq_some h
  have hPid : P.id = pid := by
    have := List.find?_some h
    simpa [idMatches] using this
  have hqP : q = P :=
    List.inj_on_of_nodup_map hnd hq hPmem (by rw [hqid, hPid])
  rw [hqP] at hlq
  rw [hmem] at hlq
  exact Bool.false_ne_true hlq.2

theorem likeHandler_already_liked (store : List Post) (pid : String)
    (uid : Nat) (P : Post)
    (hP : findPost store pid = some P)
    (hv : isValidObjectId pid = true) (hu : uid ≠ 0)
    (hc : (P.likedBy.getD []).contains uid = true) :
    likeHandler true store { postId := some pid, userId := some uid } =
      (store, [Emit.errorEvt "Vous avez déjà liké ce post"]) := by
  have hts : truthyStr (some pid) = true :=
    truthyStr_some_of_ne (ne_empty_of_validObjectId hv)
  have htu : truthyNat (some uid) = true := by simp [truthyNat, hu]
  have hfind := find_likedMatch_of_found pid uid store P hP hc
  unfold likeHandler
  simp [hts, htu, hv, hfind]

theorem likeHandler_fresh (store : List Post) (pid : String)
    (uid : Nat) (P : Post)
    (hnd : (store.map Post.id).Nodup)
    (hP : findPost store pid = some P)
    (hv : isValidObjectId pid = true) (hu : uid ≠ 0)
    (hc : (P.likedBy.getD []).contains uid = false) :
    likeHandler true store { postId := some pid, userId := some uid } =
      ((updateFirst (idMatches pid)
          (fun p => { p with
            likes := some (p.likes.getD 0 + 1),
            likedBy := some (p.likedBy.getD [] ++ [uid]) }) store).1,
       [Emit.postLiked pid uid (P.likes.getD 0 + 1)]) := by
  have hts : truthyStr (some pid) = true :=
    truthyStr_some_of_ne (ne_empty_of_validObjectId hv)
  have htu : truthyNat (some uid) = true := by simp [truthyNat, hu]
  have hnone := find_likedMatch_none pid uid store P hnd hP hc
  have hfound := updateFirst_found (idMatches pid)
    (fun p => { p with
      likes := some (p.likes.getD 0 + 1),
      likedBy := some (p.likedBy.getD [] ++ [uid]) })
    (fun p hp => hp) store P hP
  unfold likeHandler
  simp [hts, htu, hv, hnone, hfound.1, hfound.2.2.1, orOne]

/-- C1: if the user already occurs in the likedBy list of the post, `like-post`
emits the already-liked error to the initiating connection, leaves the store
unchanged and broadcasts nothing; otherwise it increments the like
counter by exactly 1 and appends the user once to likedBy.  Consequently a
second identical like is rejected and the count rises by 1, not 2. -/
theorem C1_like_deduplication (store : List Post) (pid : String)
    (uid : Nat) (P : Post)
    (hnd : (store.map Post.id).Nodup)
    (hP : findPost store pid = some P)
    (hv : isValidObjectId pid = true) (hu : uid ≠ 0) :
    ((P.likedBy.getD []).contains uid = true →
      likeHandler true store { postId := some pid, userId := some uid } =
        (store, [Emit.errorEvt "Vous avez déjà liké ce post"])) ∧
    ((P.likedBy.getD []).contains uid = false →
      (likeHandler true store { postId := some pid, userId := some uid }).2 =
        [Emit.postLiked pid uid (P.likes.getD 0 + 1)] ∧
      findPost (likeHandler true store
          { postId := some pid, userId := some uid }).1 pid =
        some { P with likes := some (P.likes.getD 0 + 1),
                      likedBy := some (P.likedBy.getD [] ++ [uid]) } ∧
      (likeHandler true store
          { postId := some pid, userId := some uid }).1.length =
        store.length ∧
      (∀ q ∈ store, q.id ≠ pid →
        q ∈ (likeHandler true store
          { postId := some pid, userId := some uid }).1) ∧
      likeHandler true
          (likeHandler true store
            { postId := some pid, userId := some uid }).1
          { postId := some pid, userId := some uid } =
        ((likeHandler true store
            { postId := some pid, userId := some uid }).1,
         [Emit.errorEvt "Vous avez déjà liké ce post"])) := by
  constructor
  · intro hc
    exact likeHandler_already_liked store pid uid P hP hv hu hc
  · intro hc
    have hred := likeHandler_fresh store pid uid P hnd hP hv hu hc
    have hfound := updateFirst_found (idMatches pid)
      (fun p => { p with
        likes := some (p.likes.getD 0 + 1),
        likedBy := some (p.likedBy.getD [] ++ [uid]) })
      (fun p hp => hp) store P hP
    refine ⟨by rw [hred], ?_, ?_, ?_, ?_⟩
    · rw [hred]
      exact hfound.2.2.1
    · rw [hred]
      exact hfound.2.1
    · intro q hq hqid
      rw [hred]
      exact hfound.2.2.2 q hq (by simp [idMatches, hqid])
    · have hP2 : findPost (likeHandler true store
          { postId := some pid, userId := some uid }).1 pid =
          some { P with likes := some (P.likes.getD 0 + 1),
                        likedBy := some (P.likedBy.getD [] ++ [uid]) } := by
        rw [hred]
        exact hfound.2.2.1
      have hc2 : ((Post.likedBy { P with
          likes := some (P.likes.getD 0 + 1),
          likedBy := some (P.likedBy.getD [] ++ [uid]) }).getD
            []).contains uid = true := by
        simp
      exact likeHandler_already_liked _ pid uid _ hP2 hv hu hc2

/-- Witness for C1: liking a post with zero likes broadcasts totalLikes 1,
and repeating the same call is rejected with the already-liked error. -/
theorem C1_like_deduplication_witness :
    (likeHandler true
        [{ id := "0123456789abcdef01234567", body := some "contenu",
           createdBy := some 2, date := some "2025-01-01",
           hour := some "10:00:00", likes := some 0, likedBy := some [],
           comments := some [], hashtags := some [], images := some [],
           isShared := some false, originalPost := none, sharedFrom := none }]
        { postId := some "0123456789abcdef01234567", userId := some 1 }).2 =
      [Emit.postLiked "0123456789abcdef01234567" 1 1] ∧
    likeHandler true
        (likeHandler true
          [{ id := "0123456789abcdef01234567", body := some "contenu",
             createdBy := some 2, date := some "2025-01-01",
             hour := some "10:00:00", likes := some 0, likedBy := some [],
             comments := some [], hashtags := some [], images := some [],
             isShared := some false, originalPost := none,
             sharedFrom := none }]
          { postId := some "0123456789abcdef01234567",
            userId := some 1 }).1
        { postId := some "0123456789abcdef01234567", userId := some 1 } =
      ((likeHandler true
          [{ id := "0123456789abcdef01234567", body := some "contenu",
             createdBy := some 2, date := some "2025-01-01",
             hour := some "10:00:00", likes := some 0, likedBy := some [],
             comments := some [], hashtags := some [], images := some [],
             isShared := some false, originalPost := none,
             sharedFrom := none }]
          { postId := some "0123456789abcdef01234567",
            userId := some 1 }).1,
       [Emit.errorEvt "Vous avez déjà liké ce post"]) :=
  have h := (C1_like_deduplication
    [{ id := "0123456789abcdef01234567", body := some "contenu",
       createdBy := some 2, date := some "2025-01-01",
       hour := some "10:00:00", likes := some 0, likedBy := some [],
       comments := some [], hashtags := some [], images := some [],
       isShared := some false, originalPost := none, sharedFrom := none }]
    "0123456789abcdef01234567" 1
    { id := "0123456789abcdef01234567", body := some "contenu",
      createdBy := some 2, date := some "2025-01-01",
      hour := some "10:00:00", likes := some 0, likedBy := some [],
      comments := some [], hashtags := some [], images := some [],
      isShared := some false, originalPost := none, sharedFrom := none }
    (by decide) rfl (by decide) (by decide)).2 (by decide)
  ⟨h.1, h.2.2.2.2⟩

theorem length_insertLe (le : Post → Post → Bool) (p : Post) (l : List Post) :
    (insertLe le p l).length = l.length + 1 := by
  induction l with
  | nil => rfl
  | cons q qs ih =>
    unfold insertLe
    cases hq : le p q with
    | true => simp [hq]
    | false => simp [hq, ih]

theorem length_sortPosts (le : Post → Post → Bool) (l : List Post) :
    (sortPosts le l).length = l.length := by
  induction l with
  | nil => rfl
  | cons p ps ih =>
    unfold sortPosts
    rw [length_insertLe, ih]
    rfl

/-- C5: `GET /posts` defaults to page 1 and pageSize 10, reports the count of
matching posts and `totalPages = ceil(total / pageSize)`, and returns the
page window of at most pageSize posts obtained after skipping
`(page-1)*pageSize` of them; with 25 matching posts and pageSize 10,
totalPages is 3 and page 3 holds 5 posts. -/
theorem C5_listPosts_pagination (store : List Post) (users : List Account)
    (nowIso : String) (q : PostsQuery) :
    (listPosts true store users nowIso q).page = orDefault q.page 1 ∧
    (listPosts true store users nowIso q).pageSize = orDefault q.pageSize 10 ∧
    (q.page = none → (listPosts true store users nowIso q).page = 1) ∧
    (q.pageSize = none →
      (listPosts true store users nowIso q).pageSize = 10) ∧
    (listPosts true store users nowIso q).total =
      (store.filter (matchesFilter q)).length ∧
    (listPosts true store users nowIso q).totalPages =
      ((store.filter (matchesFilter q)).length + orDefault q.pageSize 10 - 1) /
        orDefault q.pageSize 10 ∧
    (listPosts true store users nowIso q).posts.length =
      min (orDefault q.pageSize 10)
        ((store.filter (matchesFilter q)).length -
          (orDefault q.page 1 - 1) * orDefault q.pageSize 10) ∧
    ((store.filter (matchesFilter q)).length = 25 ∧ q.pageSize = some 10 ∧
        q.page = some 3 →
      (listPosts true store users nowIso q).totalPages = 3 ∧
      (listPosts true store users nowIso q).posts.length = 5) := by
  have hlen : (listPosts true store users nowIso q).posts.length =
      min (orDefault q.pageSize 10)
        ((store.filter (matchesFilter q)).length -
          (orDefault q.page 1 - 1) * orDefault q.pageSize 10) := by
    simp [listPosts, length_sortPosts]
  refine ⟨rfl, rfl, ?_, ?_, rfl, rfl, hlen, ?_⟩
  · intro h
    show orDefault q.page 1 = 1
    rw [h]
    rfl
  · intro h
    show orDefault q.pageSize 10 = 10
    rw [h]
    rfl
  · rintro ⟨h25, hps, hpg⟩
    constructor
    · show ((store.filter (matchesFilter q)).length +
          orDefault q.pageSize 10 - 1) / orDefault q.pageSize 10 = 3
      rw [h25, hps]
      decide
    · rw [hlen, h25, hps, hpg]
      decide

/-- Witness for C5: 25 matching posts with pageSize 10 give 3 total pages and
5 posts on page 3, and an empty query defaults to page 1, pageSize 10. -/
theorem C5_listPosts_pagination_witness :
    (listPosts true
        (List.replicate 25
          { id := "p", body := none, createdBy := none, date := none,
            hour := none, likes := none, likedBy := none, comments := none,
            hashtags := none, images := none, isShared := none,
            originalPost := none, sharedFrom := none })
        [] "2025-03-11T14:30:00.000Z"
        { page := some 3, pageSize := some 10, hashtag := none,
          filterByOwner := none, userId := none, sortBy := none,
          sortDirection := none }).totalPages = 3 ∧
    (listPosts true
        (List.replicate 25
          { id := "p", body := none, createdBy := none, date := none,
            hour := none, likes := none, likedBy := none, comments := none,
            hashtags := none, images := none, isShared := none,
            originalPost := none, sharedFrom := none })
        [] "2025-03-11T14:30:00.000Z"
        { page := some 3, pageSize := some 10, hashtag := none,
          filterByOwner := none, userId := none, sortBy := none,
          sortDirection := none }).posts.length = 5 ∧
    (listPosts true [] [] "2025-03-11T14:30:00.000Z"
        { page := none, pageSize := none, hashtag := none,
          filterByOwner := none, userId := none, sortBy := none,
          sortDirection := none }).page = 1 ∧
    (listPosts true [] [] "2025-03-11T14:30:00.000Z"
        { page := none, pageSize := none, hashtag := none,
          filterByOwner := none, userId := none, sortBy := none,
          sortDirection := none }).pageSize = 10 :=
  have h := C5_listPosts_pagination
    (List.replicate 25
      { id := "p", body := none, createdBy := none, date := none,
        hour := none, likes := none, likedBy := none, comments := none,
        hashtags := none, images := none, isShared := none,
        originalPost := none, sharedFrom := none })
    [] "2025-03-11T14:30:00.000Z"
    { page := some 3, pageSize := some 10, hashtag := none,
      filterByOwner := none, userId := none, sortBy := none,
      sortDirection := none }
  have hd := C5_listPosts_pagination [] [] "2025-03-11T14:30:00.000Z"
    { page := none, pageSize := none, hashtag := none,
      filterByOwner := none, userId := none, sortBy := none,
      sortDirection := none }
  have hi := h.2.2.2.2.2.2.2 ⟨by decide, rfl, rfl⟩
  ⟨hi.1, hi.2, hd.2.2.1 rfl, hd.2.2.2.1 rfl⟩

/-- C3 counterexample: with `postId` absent from the payload the registered
add-comment handler does not fail with the incomplete-data error; it emits
no error at all and broadcasts `new-comment`. -/
theorem C3_no_validation_counterexample :
    commentHandler true "c1" "2025-01-01" "12:00:00" []
        { postId := none, userId := some 1, content := some "salut",
          userName := some "Jean" } =
      ([], [Emit.newCommentEvt "c1" none (some 1) (some "Jean") (some "Jean")
        (some "salut") "2025-01-01" "12:00:00"]) ∧
    (commentHandler true "c1" "2025-01-01" "12:00:00" []
        { postId := none, userId := some 1, content := some "salut",
          userName := some "Jean" }).2 ≠
      [Emit.errorEvt "Données de commentaire incomplètes"] :=
  ⟨rfl, by decide⟩

/-- C3 (amended): the registered add-comment handler performs no input
validation: with `postId`, `userId` or `content` absent it emits no
InvalidInput error, issues the update and broadcasts `new-comment`
unconditionally; with an absent `postId` the update filter matches no
document, so the store is unchanged. -/
theorem C3_no_validation (newId dateStr timeStr : String)
    (store : List Post) (d : CommentData)
    (_h : d.postId = none ∨ d.userId = none ∨ d.content = none) :
    (commentHandler true newId dateStr timeStr store d).2 =
      [Emit.newCommentEvt newId d.postId d.userId d.userName d.userName
        d.content dateStr timeStr] ∧
    (d.postId = none →
      (commentHandler true newId dateStr timeStr store d).1 = store) := by
  have hres : commentHandler true newId dateStr timeStr store d =
      ((updateFirst (payloadIdMatches d.postId)
          (fun p => { p with comments := some (p.comments.getD [] ++
            [{ id := newId, commentedBy := d.userId.getD 0,
               text := d.content.getD "", date := dateStr,
               hour := timeStr }]) }) store).1,
       [Emit.newCommentEvt newId d.postId d.userId d.userName d.userName
         d.content dateStr timeStr]) := rfl
  refine ⟨by rw [hres], ?_⟩
  intro hp
  have hnone : store.find? (payloadIdMatches none) = none :=
    List.find?_eq_none.mpr (fun q hq => by simp [payloadIdMatches])
  have hupd := updateFirst_of_find?_none (payloadIdMatches none)
    (fun p => { p with comments := some (p.comments.getD [] ++
      [{ id := newId, commentedBy := d.userId.getD 0,
         text := d.content.getD "", date := dateStr,
         hour := timeStr }]) }) store hnone
  rw [hres, hp, hupd]

/-- Witness for the amended C3 at a payload with a missing `postId`. -/
theorem C3_no_validation_witness :
    (commentHandler true "c2" "2025-01-02" "13:00:00" []
        { postId := none, userId := some 2, content := some "bonjour",
          userName := some "Anna" }).2 =
      [Emit.newCommentEvt "c2" none (some 2) (some "Anna") (some "Anna")
        (some "bonjour") "2025-01-02" "13:00:00"] ∧
    (commentHandler true "c2" "2025-01-02" "13:00:00" []
        { postId := none, userId := some 2, content := some "bonjour",
          userName := some "Anna" }).1 = [] :=
  have h := C3_no_validation "c2" "2025-01-02" "13:00:00" []
    { postId := none, userId := some 2, content := some "bonjour",
      userName := some "Anna" } (Or.inl rfl)
  ⟨h.1, h.2 rfl⟩

